import Mathlib

/-!
Verification of the Vulkan shader/pipeline cache layer of Ishiiruka
(Source/Core/VideoBackends/Vulkan/ShaderCache.cpp), as a shallow embedding.

External collaborators (the Vulkan driver entry points, the shader source
generator, the SPIR-V compiler and the module creator) are modelled as
oracle functions passed in as parameters; machine integers are modelled as
Nat; maps are association lists; VK_NULL_HANDLE is modelled as none.
-/

set_option linter.unusedVariables false

namespace IshiirukaVk

/-! ## Association-list maps (std::unordered_map / profiler map, observable part) -/

/-- Lookup of a key in an association-list map. -/
def lookupEntry {K V : Type} [DecidableEq K] : List (K × V) → K → Option V
  | [], _ => none
  | (k, v) :: rest, key => if k = key then some v else lookupEntry rest key

/-- Store a value under a key, replacing an existing binding or appending a new one. -/
def setEntry {K V : Type} [DecidableEq K] : List (K × V) → K → V → List (K × V)
  | [], key, v => [(key, v)]
  | (k, w) :: rest, key, v =>
    if k = key then (key, v) :: rest else (k, w) :: setEntry rest key v

/-! ## Pipeline cache header validation (ShaderCache::ValidatePipelineCache) -/

/-- Little-endian 32-bit read at a byte offset, as done by the memcpy of the
header struct from the raw blob. -/
def readU32LE (data : List Nat) (off : Nat) : Nat :=
  data.getD off 0 + 256 * (data.getD (off + 1) 0 +
    256 * (data.getD (off + 2) 0 + 256 * data.getD (off + 3) 0))

/-- VK_UUID_SIZE from the Vulkan headers. -/
def VK_UUID_SIZE : Nat := 16

/-- sizeof(VK_PIPELINE_CACHE_HEADER): four packed u32 fields plus a 16-byte UUID. -/
def pipelineCacheHeaderSize : Nat := 32

/-- VK_PIPELINE_CACHE_HEADER_VERSION_ONE from the Vulkan headers. -/
def VK_PIPELINE_CACHE_HEADER_VERSION_ONE : Nat := 1

/-- Layout for pipeline cache header version one (struct VK_PIPELINE_CACHE_HEADER). -/
structure VkPipelineCacheHeader where
  header_length : Nat
  header_version : Nat
  vendor_id : Nat
  device_id : Nat
  uuid : List Nat
  deriving Repr, DecidableEq

/-- The memcpy of the packed header out of the raw blob: u32 fields at byte
offsets 0, 4, 8, 12 and the UUID at bytes 16..31. -/
def readPipelineCacheHeader (data : List Nat) : VkPipelineCacheHeader :=
  { header_length := readU32LE data 0
    header_version := readU32LE data 4
    vendor_id := readU32LE data 8
    device_id := readU32LE data 12
    uuid := (data.drop 16).take VK_UUID_SIZE }

/-- The identity fields of VkPhysicalDeviceProperties consulted by validation. -/
structure VkPhysicalDeviceProperties where
  vendorID : Nat
  deviceID : Nat
  pipelineCacheUUID : List Nat
  deriving Repr, DecidableEq

/-- ShaderCache::ValidatePipelineCache: the sequence of early-return checks on
the blob header against the live device identity. -/
def validatePipelineCache (dev : VkPhysicalDeviceProperties) (data : List Nat) : Bool :=
  if data.length < pipelineCacheHeaderSize then false
  else
    let header := readPipelineCacheHeader data
    if header.header_length < pipelineCacheHeaderSize then false
    else if header.header_version ≠ VK_PIPELINE_CACHE_HEADER_VERSION_ONE then false
    else if header.vendor_id ≠ dev.vendorID then false
    else if header.device_id ≠ dev.deviceID then false
    else if header.uuid ≠ dev.pipelineCacheUUID.take VK_UUID_SIZE then false
    else true

/-! ## Pipeline cache creation and save (ShaderCache::CreatePipelineCache /
ShaderCache::SavePipelineCache) -/

/-- Observable outcome of ShaderCache::CreatePipelineCache: the returned Bool,
whether the stale on-disk file was deleted, and the initial data handed to each
vkCreatePipelineCache call in order (an empty list models a null pInitialData
seed, since the source passes nullptr exactly when disk_data is empty). -/
structure CreatePipelineCacheResult where
  success : Bool
  file_deleted : Bool
  attempts : List (List Nat)
  deriving Repr, DecidableEq

/-- ShaderCache::CreatePipelineCache after the disk read: disk_data is the blob
produced by the OpenAndRead block (empty when not loading or the read failed),
vkCreate is the vkCreatePipelineCache oracle keyed by the initial data it is
given. A non-empty blob failing validation is deleted and cleared; creation is
attempted with the remaining data and retried once with an empty cache. -/
def createPipelineCache (dev : VkPhysicalDeviceProperties)
    (vkCreate : List Nat → Bool) (disk_data : List Nat) : CreatePipelineCacheResult :=
  let (data, deleted) :=
    if ¬disk_data.isEmpty ∧ ¬validatePipelineCache dev disk_data then
      ([], true)
    else
      (disk_data, false)
  if vkCreate data then
    { success := true, file_deleted := deleted, attempts := [data] }
  else if vkCreate [] then
    { success := true, file_deleted := deleted, attempts := [data, []] }
  else
    { success := false, file_deleted := deleted, attempts := [data, []] }

/-- A mutation of the on-disk pipeline cache file performed by SavePipelineCache. -/
inductive PipelineCacheFileOp where
  | deleteFile
  | writeFile (data : List Nat)
  deriving Repr, DecidableEq

/-- ShaderCache::SavePipelineCache: getSizeRes models the first
vkGetPipelineCacheData call (size query) succeeding, getDataRes the second call
(none on failure, some data on success). Returns the file contents after the
call together with the file operations performed. -/
def savePipelineCache (getSizeRes : Bool) (getDataRes : Option (List Nat))
    (file : Option (List Nat)) : Option (List Nat) × List PipelineCacheFileOp :=
  if ¬getSizeRes then
    (file, [])
  else
    match getDataRes with
    | none => (file, [])
    | some data => (some data, [PipelineCacheFileOp.deleteFile, PipelineCacheFileOp.writeFile data])

/-! ## Shader variant cache (ShaderCache::vkShaderItem, CompileVertexShaderForUid /
CompilePixelShaderForUid, GetVertexShaderForUid / GetPixelShaderForUid) -/

/-- ShaderCache::vkShaderItem. The C++ field is a std::atomic_flag whose
test_and_set returns the previous value and leaves the flag set; here the flag
is a Bool mutated explicitly at each test_and_set site. The module field models
VkShaderModule, with none for VK_NULL_HANDLE. -/
structure VkShaderItem where
  initd : Bool
  compiled : Bool
  module : Option Nat
  deriving Repr, DecidableEq

/-- The default-constructed vkShaderItem inserted by GetOrAdd / operator[] on a
missing key: flag clear, not compiled, null module. -/
def VkShaderItem.fresh : VkShaderItem :=
  { initd := false, compiled := false, module := none }

/-- The external collaborators used by CompileVertexShaderForUid and
CompilePixelShaderForUid: the shader source generator (a pure function of the
uid), the SPIR-V compiler (none on failure) and Util::CreateShaderModule (none
for VK_NULL_HANDLE). -/
structure ShaderCompileEnv (K : Type) where
  genCode : K → Nat
  compileCode : Nat → Option (List Nat)
  createModule : List Nat → Option Nat

/-- CompileVertexShaderForUid / CompilePixelShaderForUid (identical control
flow, differing only in which generator, compiler entry point and disk cache
they use): generate source, compile it, create the module, append the SPIR-V
to the disk cache only when module creation succeeded; unconditionally set
compiled := true and store the module (possibly null) in the entry. -/
def compileShaderForUid {K : Type} [DecidableEq K] (env : ShaderCompileEnv K) (uid : K)
    (it : VkShaderItem) (disk : List (K × List Nat)) : VkShaderItem × List (K × List Nat) :=
  let source := env.genCode uid
  let (module, disk') :=
    match env.compileCode source with
    | none => (none, disk)
    | some spv =>
      match env.createModule spv with
      | none => (none, disk)
      | some m => (some m, disk ++ [(uid, spv)])
  ({ it with compiled := true, module := module }, disk')

/-- The observable state of one shader stage cache: the shader map, the
append-only disk cache contents, and a counter of compile invocations made so
far (counting calls to the Compile...ForUid body). -/
structure ShaderCacheState (K : Type) where
  shader_map : List (K × VkShaderItem)
  disk : List (K × List Nat)
  compileInvocations : Nat
  deriving Repr, DecidableEq

/-- GetVertexShaderForUid / GetPixelShaderForUid: GetOrAdd the entry for the
uid, test_and_set its flag; if it was already set return the stored module,
otherwise compile (with the flag now set) and return the resulting module. -/
def getShaderForUid {K : Type} [DecidableEq K] (env : ShaderCompileEnv K)
    (s : ShaderCacheState K) (uid : K) : Option Nat × ShaderCacheState K :=
  let it := (lookupEntry s.shader_map uid).getD VkShaderItem.fresh
  if it.initd then
    (it.module, s)
  else
    let (it', disk') := compileShaderForUid env uid { it with initd := true } s.disk
    (it'.module,
     { shader_map := setEntry s.shader_map uid it', disk := disk',
       compileInvocations := s.compileInvocations + 1 })

/-- n repeated lookups of the same uid, threading the state. -/
def getShaderForUidIter {K : Type} [DecidableEq K] (env : ShaderCompileEnv K) (uid : K) :
    Nat → ShaderCacheState K → ShaderCacheState K
  | 0, s => s
  | Nat.succ n, s => getShaderForUidIter env uid n (getShaderForUid env s uid).2

/-! ## Pipeline object cache (ShaderCache::CreatePipeline /
GetPipelineWithCacheResult / GetPipeline) -/

/-- The PipelineInfo key of m_pipeline_objects. Modelled from the spec: the
struct is declared in ShaderCache.h, which is not part of this file set; the
spec describes the Pipeline Key as the tuple of stage handles, state
sub-records, vertex layout, render target descriptor and layout identity, equal
iff every field compares equal, and the fields are the ones CreatePipeline
reads. Each sub-record is abstracted to an opaque value. -/
structure PipelineInfo where
  vertex_format : Nat
  pipeline_layout : Nat
  vs : Option Nat
  gs : Option Nat
  ps : Option Nat
  render_pass : Nat
  rasterization_state : Nat
  depth_state : Nat
  blend_state : Nat
  multisampling_state : Nat
  deriving Repr, DecidableEq

/-- GetPipelineWithCacheResult: look the key up in m_pipeline_objects and
return the stored pair on a hit; on a miss invoke CreatePipeline (modelled by
the vkCreate oracle, none for VK_NULL_HANDLE), store (pipeline, true) and
return (pipeline, false). The final Nat counts CreatePipeline invocations. -/
def getPipelineWithCacheResult (vkCreate : PipelineInfo → Option Nat)
    (m : List (PipelineInfo × (Option Nat × Bool))) (info : PipelineInfo) :
    (Option Nat × Bool) × List (PipelineInfo × (Option Nat × Bool)) × Nat :=
  match lookupEntry m info with
  | some cached => (cached, m, 0)
  | none =>
    let pipeline := vkCreate info
    ((pipeline, false), setEntry m info (pipeline, true), 1)

/-- GetPipeline: the first component of GetPipelineWithCacheResult. -/
def getPipeline (vkCreate : PipelineInfo → Option Nat)
    (m : List (PipelineInfo × (Option Nat × Bool))) (info : PipelineInfo) : Option Nat :=
  (getPipelineWithCacheResult vkCreate m info).1.1

/-! ## Shader variant keys and the disk cache readers
(ShaderUsageCacheReader::Read / ShaderCacheReader::Read) -/

/-- Modelled from the spec: the shader Uid types (VertexShaderUid,
PixelShaderUid, ...) live in VideoCommon, outside this file set. The spec
describes them as structural content plus a cached-hash field, where
CalculateUIDHash recomputes the hash over the raw uid data (so a stale non-zero
cached hash would flow into the new hash unless ClearHASH zeroes it first). -/
structure ShaderUid where
  content : Nat
  hash : Nat
  deriving Repr, DecidableEq

/-- Modelled from the spec: ClearHASH zeroes the cached-hash field. -/
def ShaderUid.clearHASH (u : ShaderUid) : ShaderUid :=
  { u with hash := 0 }

/-- Modelled from the spec: CalculateUIDHash hashes the whole uid record,
cached-hash field included, and stores the result in the cached-hash field.
hashFn is the underlying hash of (content, current hash field). -/
def ShaderUid.calculateUIDHash (hashFn : Nat → Nat → Nat) (u : ShaderUid) : ShaderUid :=
  { u with hash := hashFn u.content u.hash }

/-- The canonicalization step: ClearHASH then CalculateUIDHash. -/
def ShaderUid.canonicalize (hashFn : Nat → Nat → Nat) (u : ShaderUid) : ShaderUid :=
  (u.clearHASH).calculateUIDHash hashFn

/-- ShaderUsageCacheReader::Read, the disk replay sink for the profiler-backed
maps: create the module from the record payload and return without touching the
map when creation yields VK_NULL_HANDLE; otherwise canonicalize a copy of the
key into item (which the source then never uses), GetOrAdd under the original
key and mark the entry initialized and compiled with the created module. -/
def shaderUsageCacheReaderRead (hashFn : Nat → Nat → Nat)
    (createModule : List Nat → Option Nat) (shader_map : List (ShaderUid × VkShaderItem))
    (key : ShaderUid) (value : List Nat) : List (ShaderUid × VkShaderItem) :=
  match createModule value with
  | none => shader_map
  | some module =>
    let item := (key.clearHASH).calculateUIDHash hashFn
    setEntry shader_map key { initd := true, compiled := true, module := some module }

/-- ShaderCacheReader::Read, the disk replay sink for the plain unordered_map
caches; identical control flow to ShaderUsageCacheReader::Read. -/
def shaderCacheReaderRead (hashFn : Nat → Nat → Nat)
    (createModule : List Nat → Option Nat) (shader_map : List (ShaderUid × VkShaderItem))
    (key : ShaderUid) (value : List Nat) : List (ShaderUid × VkShaderItem) :=
  match createModule value with
  | none => shader_map
  | some module =>
    let item := (key.clearHASH).calculateUIDHash hashFn
    setEntry shader_map key { initd := true, compiled := true, module := some module }

/-! ## Usage-ranked traversal (ObjectUsageProfiler::ForEachMostUsedByCategory) -/

/-- The usage-ranked ordering: an entry precedes another when its usage count is
at least as large. -/
def usageOrder {K : Type} (a b : K × Nat) : Prop := b.2 ≤ a.2

instance usageOrderDecRel {K : Type} : DecidableRel (@usageOrder K) :=
  fun a b => Nat.decLe b.2 a.2

instance usageOrderTotal {K : Type} : IsTotal (K × Nat) usageOrder :=
  ⟨fun a b => le_total b.2 a.2⟩

instance usageOrderTrans {K : Type} : IsTrans (K × Nat) usageOrder :=
  ⟨fun _ _ _ hab hbc => le_trans hbc hab⟩

/-- The sequence of visit invocations over a list of remaining entries: each
entry is visited once, with a running index starting at i and the fixed total
candidate count. -/
def visitListFrom {K : Type} (total : Nat) : Nat → List (K × Nat) → List (K × Nat × Nat)
  | _, [] => []
  | i, kc :: rest => (kc.1, i, total) :: visitListFrom total (i + 1) rest

/-- Modelled from the spec: ObjectUsageProfiler::ForEachMostUsedByCategory is
declared outside this file set; the spec specifies a finite ordered traversal
of all known keys of the category, sorted by descending usage count when
most_used_first is set, with the skip predicate filtering out keys whose cache
entry is already resolved, and visit invoked once per remaining key with a
running index and the total candidate count. counts is the category keyspace
with its usage counts; skip k = true drops k; the result records the visit
invocations as (key, running index, total). -/
def forEachMostUsedByCategory {K : Type} (counts : List (K × Nat)) (skip : K → Bool)
    (most_used_first : Bool) : List (K × Nat × Nat) :=
  let ordered := if most_used_first then List.insertionSort usageOrder counts else counts
  let remaining := ordered.filter (fun kc => !skip kc.1)
  visitListFrom remaining.length 0 remaining

/-! ## Concrete sample inputs used to exercise the definitions -/

/-- A sample device identity. -/
def sampleDevice : VkPhysicalDeviceProperties :=
  { vendorID := 5, deviceID := 7, pipelineCacheUUID := List.replicate 16 3 }

/-- A blob whose header matches sampleDevice exactly. -/
def sampleGoodBlob : List Nat :=
  [32, 0, 0, 0, 1, 0, 0, 0, 5, 0, 0, 0, 7, 0, 0, 0] ++ List.replicate 16 3

/-- A blob identical to sampleGoodBlob except for a tampered vendor id. -/
def sampleBadVendorBlob : List Nat :=
  [32, 0, 0, 0, 1, 0, 0, 0, 9, 0, 0, 0, 7, 0, 0, 0] ++ List.replicate 16 3

/-- A vkCreatePipelineCache oracle that succeeds only without a seed. -/
def sampleCreateEmptyOnly : List Nat → Bool := fun d => d.isEmpty

/-- A compile environment whose compiler step always fails. -/
def sampleFailEnv : ShaderCompileEnv Nat :=
  { genCode := fun u => u, compileCode := fun _ => none, createModule := fun _ => some 1 }

/-- A compile environment in which every step succeeds. -/
def sampleOkEnv : ShaderCompileEnv Nat :=
  { genCode := fun u => u, compileCode := fun s => some [s], createModule := fun _ => some 42 }

/-- The state of a shader stage cache at process start, before any replay. -/
def emptyShaderState : ShaderCacheState Nat :=
  { shader_map := [], disk := [], compileInvocations := 0 }

/-- A sample pipeline key. -/
def samplePipelineInfo : PipelineInfo :=
  { vertex_format := 0, pipeline_layout := 0, vs := some 1, gs := none, ps := some 2,
    render_pass := 0, rasterization_state := 0, depth_state := 0, blend_state := 0,
    multisampling_state := 0 }

/-- A pipeline key differing from samplePipelineInfo in exactly one field. -/
def samplePipelineInfoAlt : PipelineInfo :=
  { samplePipelineInfo with blend_state := 1 }

/-- A sample uid hash function. -/
def sampleHashFn : Nat → Nat → Nat := fun c h => c + h + 1

/-- A sample module creator failing exactly on a zero-length payload. -/
def sampleCreateModule : List Nat → Option Nat := fun v => if v = [] then none else some 7

/-- A sample uid carrying a stale cached hash. -/
def sampleStaleUid : ShaderUid := { content := 5, hash := 99 }

end IshiirukaVk

namespace IshiirukaVk

/-- Claim C2: ValidatePipelineCache(data, data_length) returns true if and only
if the blob is at least as long as the header, the header length field is at
least the header size, the header version is the one supported version, and the
vendor id, device id and UUID each exactly equal the live device identity; any
single mismatch yields false. -/
theorem validatePipelineCache_true_iff (dev : VkPhysicalDeviceProperties) (data : List Nat) :
    validatePipelineCache dev data = true ↔
      (pipelineCacheHeaderSize ≤ data.length ∧
       pipelineCacheHeaderSize ≤ (readPipelineCacheHeader data).header_length ∧
       (readPipelineCacheHeader data).header_version = VK_PIPELINE_CACHE_HEADER_VERSION_ONE ∧
       (readPipelineCacheHeader data).vendor_id = dev.vendorID ∧
       (readPipelineCacheHeader data).device_id = dev.deviceID ∧
       (readPipelineCacheHeader data).uuid = dev.pipelineCacheUUID.take VK_UUID_SIZE) := by
  simp only [validatePipelineCache]
  split_ifs with h0 h1 h2 h3 h4 h5
  · simp only [false_iff]
    rintro ⟨h, -⟩
    omega
  · simp only [false_iff]
    rintro ⟨-, h, -⟩
    omega
  · simp only [false_iff]
    rintro ⟨-, -, h, -⟩
    exact h2 h
  · simp only [false_iff]
    rintro ⟨-, -, -, h, -⟩
    exact h3 h
  · simp only [false_iff]
    rintro ⟨-, -, -, -, h, -⟩
    exact h4 h
  · simp only [false_iff]
    rintro ⟨-, -, -, -, -, h⟩
    exact h5 h
  · simp only [true_iff]
    exact ⟨by omega, by omega, of_not_not h2, of_not_not h3, of_not_not h4, of_not_not h5⟩

/-- Claim C8: CreatePipelineCache, when given prior disk data as a seed, makes
exactly one retry with an empty cache if the seeded creation fails, and returns
false exactly when both the seeded and the empty attempts fail. -/
theorem createPipelineCache_retry_once (dev : VkPhysicalDeviceProperties)
    (vkCreate : List Nat → Bool) (disk_data : List Nat)
    (hseed : disk_data ≠ [])
    (hvalid : validatePipelineCache dev disk_data = true) :
    (vkCreate disk_data = true →
      (createPipelineCache dev vkCreate disk_data).attempts = [disk_data] ∧
      (createPipelineCache dev vkCreate disk_data).success = true) ∧
    (vkCreate disk_data = false →
      (createPipelineCache dev vkCreate disk_data).attempts = [disk_data, []] ∧
      (createPipelineCache dev vkCreate disk_data).success = vkCreate []) ∧
    ((createPipelineCache dev vkCreate disk_data).success = false ↔
      (vkCreate disk_data = false ∧ vkCreate [] = false)) := by
  have hv : ¬(¬disk_data.isEmpty ∧ ¬validatePipelineCache dev disk_data = true) := by
    simp [hvalid]
  simp only [createPipelineCache, hvalid, if_neg hv]
  refine ⟨fun h => by simp [h], fun h => by simp [h]; cases hc : vkCreate [] <;> simp [hc], ?_⟩
  cases h : vkCreate disk_data <;> cases hc : vkCreate [] <;> simp [h, hc]

/-- Witness for C8 at a concrete valid seed blob whose seeded creation fails
but whose empty-cache retry succeeds. -/
theorem createPipelineCache_retry_once_witness :
    sampleGoodBlob ≠ [] ∧
    validatePipelineCache sampleDevice sampleGoodBlob = true ∧
    (createPipelineCache sampleDevice sampleCreateEmptyOnly sampleGoodBlob).attempts =
      [sampleGoodBlob, []] ∧
    (createPipelineCache sampleDevice sampleCreateEmptyOnly sampleGoodBlob).success = true := by
  refine ⟨by decide, by decide, ?_, ?_⟩
  · exact ((createPipelineCache_retry_once sampleDevice sampleCreateEmptyOnly sampleGoodBlob
      (by decide) (by decide)).2.1 (by decide)).1
  · have h := ((createPipelineCache_retry_once sampleDevice sampleCreateEmptyOnly sampleGoodBlob
      (by decide) (by decide)).2.1 (by decide)).2
    simpa using h

/-- Claim C9: a non-empty disk blob that fails validation is discarded wholesale:
the backing file is deleted and every subsequent pipeline-cache creation attempt
runs with empty initial data, never with the stale blob. -/
theorem createPipelineCache_discards_invalid_blob (dev : VkPhysicalDeviceProperties)
    (vkCreate : List Nat → Bool) (disk_data : List Nat)
    (hne : disk_data ≠ [])
    (hinvalid : validatePipelineCache dev disk_data = false) :
    (createPipelineCache dev vkCreate disk_data).file_deleted = true ∧
    (createPipelineCache dev vkCreate disk_data).attempts.head? = some [] ∧
    (∀ a ∈ (createPipelineCache dev vkCreate disk_data).attempts, a = []) := by
  have hv : (¬disk_data.isEmpty ∧ ¬validatePipelineCache dev disk_data = true) := by
    constructor
    · simp [List.isEmpty_iff, hne]
    · simp [hinvalid]
  simp only [createPipelineCache, if_pos hv]
  cases h : vkCreate [] <;> simp [h]

/-- Witness for C9 at a concrete blob with a wrong vendor id. -/
theorem createPipelineCache_discards_invalid_blob_witness :
    sampleBadVendorBlob ≠ [] ∧
    validatePipelineCache sampleDevice sampleBadVendorBlob = false ∧
    (createPipelineCache sampleDevice sampleCreateEmptyOnly sampleBadVendorBlob).file_deleted =
      true ∧
    (createPipelineCache sampleDevice sampleCreateEmptyOnly sampleBadVendorBlob).attempts.head? =
      some [] := by
  refine ⟨by decide, by decide, ?_, ?_⟩
  · exact (createPipelineCache_discards_invalid_blob sampleDevice sampleCreateEmptyOnly
      sampleBadVendorBlob (by decide) (by decide)).1
  · exact (createPipelineCache_discards_invalid_blob sampleDevice sampleCreateEmptyOnly
      sampleBadVendorBlob (by decide) (by decide)).2.1

/-- Claim C10: SavePipelineCache leaves the on-disk state untouched when either
vkGetPipelineCacheData call fails, and performs the delete-old/write-new
replacement exactly when both readback calls succeed. -/
theorem savePipelineCache_no_partial_write (getSizeRes : Bool)
    (getDataRes : Option (List Nat)) (file : Option (List Nat)) :
    (getSizeRes = false → savePipelineCache getSizeRes getDataRes file = (file, [])) ∧
    (getDataRes = none → savePipelineCache getSizeRes getDataRes file = (file, [])) ∧
    (∀ data, getSizeRes = true → getDataRes = some data →
      savePipelineCache getSizeRes getDataRes file =
        (some data, [PipelineCacheFileOp.deleteFile, PipelineCacheFileOp.writeFile data])) := by
  refine ⟨fun h => by simp [savePipelineCache, h], fun h => ?_, fun data h1 h2 => ?_⟩
  · cases getSizeRes <;> simp [savePipelineCache, h]
  · simp [savePipelineCache, h1, h2]

/-- Witness for C10: a failed size query leaves the file alone; a successful
readback replaces it. -/
theorem savePipelineCache_no_partial_write_witness :
    savePipelineCache false (some [1, 2]) (some [9]) = (some [9], []) ∧
    savePipelineCache true none (some [9]) = (some [9], []) ∧
    savePipelineCache true (some [1, 2]) (some [9]) =
      (some [1, 2], [PipelineCacheFileOp.deleteFile, PipelineCacheFileOp.writeFile [1, 2]]) :=
  ⟨(savePipelineCache_no_partial_write false (some [1, 2]) (some [9])).1 rfl,
   (savePipelineCache_no_partial_write true none (some [9])).2.1 rfl,
   (savePipelineCache_no_partial_write true (some [1, 2]) (some [9])).2.2 [1, 2] rfl rfl⟩

/-- Storing under a key makes lookup of that key return the stored value. -/
theorem lookupEntry_setEntry_self {K V : Type} [DecidableEq K] (m : List (K × V)) (k : K)
    (v : V) : lookupEntry (setEntry m k v) k = some v := by
  induction m with
  | nil => simp [setEntry, lookupEntry]
  | cons p rest ih =>
    obtain ⟨k', w⟩ := p
    by_cases h : k' = k
    · simp [setEntry, h, lookupEntry]
    · simp [setEntry, h, lookupEntry, ih]

/-- Storing under a key leaves lookups of other keys unchanged. -/
theorem lookupEntry_setEntry_ne {K V : Type} [DecidableEq K] (m : List (K × V)) (k k' : K)
    (v : V) (h : k' ≠ k) : lookupEntry (setEntry m k v) k' = lookupEntry m k' := by
  induction m with
  | nil => simp [setEntry, lookupEntry, Ne.symm h]
  | cons p rest ih =>
    obtain ⟨k'', w⟩ := p
    by_cases hk : k'' = k
    · subst hk
      simp [setEntry, lookupEntry, Ne.symm h]
    · by_cases hk' : k'' = k'
      · simp [setEntry, hk, lookupEntry, hk', h]
      · simp [setEntry, hk, lookupEntry, hk', ih]

/-- The compile body never touches the attempted flag of the entry it fills. -/
theorem compileShaderForUid_initd {K : Type} [DecidableEq K] (env : ShaderCompileEnv K)
    (uid : K) (it : VkShaderItem) (disk : List (K × List Nat)) :
    ((compileShaderForUid env uid it disk).1).initd = it.initd := by
  simp only [compileShaderForUid]

/-- A lookup that finds the entry attempted returns the stored module and does
not change the state. -/
theorem getShaderForUid_of_initd_true {K : Type} [DecidableEq K] (env : ShaderCompileEnv K)
    (s : ShaderCacheState K) (uid : K)
    (h : ((lookupEntry s.shader_map uid).getD VkShaderItem.fresh).initd = true) :
    getShaderForUid env s uid =
      (((lookupEntry s.shader_map uid).getD VkShaderItem.fresh).module, s) := by
  simp only [getShaderForUid, h, if_true]

/-- A lookup that finds the entry unresolved compiles it and stores the result
under the uid, counting one compile invocation. -/
theorem getShaderForUid_of_initd_false {K : Type} [DecidableEq K] (env : ShaderCompileEnv K)
    (s : ShaderCacheState K) (uid : K)
    (h : ((lookupEntry s.shader_map uid).getD VkShaderItem.fresh).initd = false) :
    getShaderForUid env s uid =
      ((compileShaderForUid env uid
          { (lookupEntry s.shader_map uid).getD VkShaderItem.fresh with initd := true }
          s.disk).1.module,
       { shader_map :=
           setEntry s.shader_map uid
             (compileShaderForUid env uid
               { (lookupEntry s.shader_map uid).getD VkShaderItem.fresh with initd := true }
               s.disk).1,
         disk := (compileShaderForUid env uid
             { (lookupEntry s.shader_map uid).getD VkShaderItem.fresh with initd := true }
             s.disk).2,
         compileInvocations := s.compileInvocations + 1 }) := by
  simp only [getShaderForUid, h, Bool.false_eq_true, if_false]

/-- Claim C1: the first lookup that finds the entry for a uid unresolved performs
the compile, counts exactly one compile invocation and marks the entry attempted;
a second lookup of the same uid returns the stored module (possibly null) with
zero further compile invocations and an unchanged state, and any number of
further lookups leave the state fixed. -/
theorem getShaderForUid_compiles_once {K : Type} [DecidableEq K] (env : ShaderCompileEnv K)
    (s : ShaderCacheState K) (uid : K)
    (h : ((lookupEntry s.shader_map uid).getD VkShaderItem.fresh).initd = false) :
    (getShaderForUid env s uid).2.compileInvocations = s.compileInvocations + 1 ∧
    Option.map VkShaderItem.initd
      (lookupEntry (getShaderForUid env s uid).2.shader_map uid) = some true ∧
    Option.map VkShaderItem.module
      (lookupEntry (getShaderForUid env s uid).2.shader_map uid) =
      some (getShaderForUid env s uid).1 ∧
    getShaderForUid env (getShaderForUid env s uid).2 uid =
      ((getShaderForUid env s uid).1, (getShaderForUid env s uid).2) ∧
    (∀ n, getShaderForUidIter env uid n (getShaderForUid env s uid).2 =
      (getShaderForUid env s uid).2) := by
  have hbranch := getShaderForUid_of_initd_false env s uid h
  have hinitd : (compileShaderForUid env uid
      { (lookupEntry s.shader_map uid).getD VkShaderItem.fresh with initd := true }
      s.disk).1.initd = true :=
    compileShaderForUid_initd env uid _ s.disk
  have hlook : lookupEntry (getShaderForUid env s uid).2.shader_map uid =
      some (compileShaderForUid env uid
        { (lookupEntry s.shader_map uid).getD VkShaderItem.fresh with initd := true }
        s.disk).1 := by
    rw [hbranch]
    exact lookupEntry_setEntry_self _ _ _
  have hs1 : ((lookupEntry (getShaderForUid env s uid).2.shader_map uid).getD
      VkShaderItem.fresh).initd = true := by
    rw [hlook]
    exact hinitd
  have hsecond' := getShaderForUid_of_initd_true env (getShaderForUid env s uid).2 uid hs1
  have hsecond : getShaderForUid env (getShaderForUid env s uid).2 uid =
      ((getShaderForUid env s uid).1, (getShaderForUid env s uid).2) := by
    rw [hsecond', hlook, hbranch]
    rfl
  refine ⟨by rw [hbranch], by rw [hlook]; simp [hinitd], by rw [hlook, hbranch]; rfl, hsecond, ?_⟩
  have hfix : (getShaderForUid env (getShaderForUid env s uid).2 uid).2 =
      (getShaderForUid env s uid).2 := by
    rw [hsecond]
  intro n
  induction n with
  | zero => rfl
  | succ n ih =>
    show getShaderForUidIter env uid n (getShaderForUid env (getShaderForUid env s uid).2 uid).2 =
      (getShaderForUid env s uid).2
    rw [hfix]
    exact ih

/-- Witness for C1 at a fresh uid in an empty cache with a succeeding compiler. -/
theorem getShaderForUid_compiles_once_witness :
    (getShaderForUid sampleOkEnv emptyShaderState 3).2.compileInvocations = 1 ∧
    getShaderForUid sampleOkEnv (getShaderForUid sampleOkEnv emptyShaderState 3).2 3 =
      ((getShaderForUid sampleOkEnv emptyShaderState 3).1,
       (getShaderForUid sampleOkEnv emptyShaderState 3).2) ∧
    getShaderForUidIter sampleOkEnv 3 5 (getShaderForUid sampleOkEnv emptyShaderState 3).2 =
      (getShaderForUid sampleOkEnv emptyShaderState 3).2 := by
  have h := getShaderForUid_compiles_once sampleOkEnv emptyShaderState 3 (by decide)
  exact ⟨h.1, h.2.2.2.1, h.2.2.2.2 5⟩

/-- Counterexample to C3 as stated: a compile whose compiler step fails leaves
the entry with compiled = true, not compiled = false. -/
theorem compileShaderForUid_counterexample :
    ¬ ((compileShaderForUid sampleFailEnv 0
        { initd := true, compiled := false, module := none } []).1.compiled = false) := by
  decide

/-- Claim C3 as amended: when any compile step fails the entry ends attempted,
marked compiled (the code deliberately marks failures as resolved to prevent
retries) and with a null module, and nothing is appended to the disk cache; a
record is appended exactly when module creation succeeds. -/
theorem compileShaderForUid_failure_terminal {K : Type} [DecidableEq K]
    (env : ShaderCompileEnv K) (uid : K) (it : VkShaderItem) (disk : List (K × List Nat))
    (hinit : it.initd = true) :
    ((env.compileCode (env.genCode uid) = none ∨
        (∃ spv, env.compileCode (env.genCode uid) = some spv ∧ env.createModule spv = none)) →
      (compileShaderForUid env uid it disk).1 =
        { initd := true, compiled := true, module := none } ∧
      (compileShaderForUid env uid it disk).2 = disk) ∧
    (∀ spv m, env.compileCode (env.genCode uid) = some spv → env.createModule spv = some m →
      (compileShaderForUid env uid it disk).1 =
        { initd := true, compiled := true, module := some m } ∧
      (compileShaderForUid env uid it disk).2 = disk ++ [(uid, spv)]) := by
  constructor
  · rintro (hc | ⟨spv, hc, hm⟩)
    · simp [compileShaderForUid, hc]
      exact hinit
    · simp [compileShaderForUid, hc, hm]
      exact hinit
  · intro spv m hc hm
    simp [compileShaderForUid, hc, hm]
    exact hinit

/-- Witness for C3 (amended): a failing compiler yields an attempted, compiled,
null entry and an untouched disk cache. -/
theorem compileShaderForUid_failure_terminal_witness :
    (compileShaderForUid sampleFailEnv 0
        { initd := true, compiled := false, module := none } []).1 =
      { initd := true, compiled := true, module := none } ∧
    (compileShaderForUid sampleFailEnv 0
        { initd := true, compiled := false, module := none } []).2 = [] :=
  (compileShaderForUid_failure_terminal sampleFailEnv 0
    { initd := true, compiled := false, module := none } [] rfl).1 (Or.inl rfl)

/-- A pipeline cache hit returns the stored pair and creates nothing. -/
theorem getPipelineWithCacheResult_of_lookup_some (vkCreate : PipelineInfo → Option Nat)
    (m : List (PipelineInfo × (Option Nat × Bool))) (info : PipelineInfo)
    (cached : Option Nat × Bool) (h : lookupEntry m info = some cached) :
    getPipelineWithCacheResult vkCreate m info = (cached, m, 0) := by
  simp only [getPipelineWithCacheResult, h]

/-- A pipeline cache miss creates the pipeline and stores it under the key. -/
theorem getPipelineWithCacheResult_of_lookup_none (vkCreate : PipelineInfo → Option Nat)
    (m : List (PipelineInfo × (Option Nat × Bool))) (info : PipelineInfo)
    (h : lookupEntry m info = none) :
    getPipelineWithCacheResult vkCreate m info =
      ((vkCreate info, false), setEntry m info (vkCreate info, true), 1) := by
  simp only [getPipelineWithCacheResult, h]

/-- Claim C7: a pipeline creation failure makes GetPipeline and
GetPipelineWithCacheResult return a null handle; the failure is remembered only
for the exact pipeline key: a second lookup with an equal key returns the stored
null without invoking creation again, while any other key keeps its previous
entry and, if absent, triggers its own creation attempt. -/
theorem getPipelineWithCacheResult_failure_scoped (vkCreate : PipelineInfo → Option Nat)
    (m : List (PipelineInfo × (Option Nat × Bool))) (info alt : PipelineInfo)
    (habs : lookupEntry m info = none)
    (hfail : vkCreate info = none)
    (hne : alt ≠ info) :
    (getPipelineWithCacheResult vkCreate m info).1.1 = none ∧
    getPipeline vkCreate m info = none ∧
    (getPipelineWithCacheResult vkCreate m info).2.2 = 1 ∧
    (getPipelineWithCacheResult vkCreate
        (getPipelineWithCacheResult vkCreate m info).2.1 info).1.1 = none ∧
    (getPipelineWithCacheResult vkCreate
        (getPipelineWithCacheResult vkCreate m info).2.1 info).2.2 = 0 ∧
    (getPipelineWithCacheResult vkCreate
        (getPipelineWithCacheResult vkCreate m info).2.1 info).2.1 =
      (getPipelineWithCacheResult vkCreate m info).2.1 ∧
    lookupEntry (getPipelineWithCacheResult vkCreate m info).2.1 alt = lookupEntry m alt ∧
    (lookupEntry m alt = none →
      (getPipelineWithCacheResult vkCreate
          (getPipelineWithCacheResult vkCreate m info).2.1 alt).2.2 = 1) := by
  have hbranch := getPipelineWithCacheResult_of_lookup_none vkCreate m info habs
  have hlook : lookupEntry (getPipelineWithCacheResult vkCreate m info).2.1 info =
      some (vkCreate info, true) := by
    rw [hbranch]
    exact lookupEntry_setEntry_self _ _ _
  have halt : lookupEntry (getPipelineWithCacheResult vkCreate m info).2.1 alt =
      lookupEntry m alt := by
    rw [hbranch]
    exact lookupEntry_setEntry_ne _ _ _ _ hne
  have hsecond := getPipelineWithCacheResult_of_lookup_some vkCreate
    (getPipelineWithCacheResult vkCreate m info).2.1 info (vkCreate info, true) hlook
  refine ⟨by rw [hbranch, hfail], ?_, by rw [hbranch], ?_, ?_, ?_, halt, ?_⟩
  · show (getPipelineWithCacheResult vkCreate m info).1.1 = none
    rw [hbranch, hfail]
  · rw [hsecond, hfail]
  · rw [hsecond]
  · rw [hsecond]
  · intro haltabs
    have haltabs' : lookupEntry (getPipelineWithCacheResult vkCreate m info).2.1 alt = none := by
      rw [halt, haltabs]
    rw [getPipelineWithCacheResult_of_lookup_none vkCreate
      (getPipelineWithCacheResult vkCreate m info).2.1 alt haltabs']

/-- Witness for C7 at two concrete pipeline keys differing in one state field,
with a creator that always fails. -/
theorem getPipelineWithCacheResult_failure_scoped_witness :
    getPipeline (fun _ => none) [] samplePipelineInfo = none ∧
    (getPipelineWithCacheResult (fun _ => none)
        (getPipelineWithCacheResult (fun _ => none) [] samplePipelineInfo).2.1
        samplePipelineInfo).2.2 = 0 ∧
    (getPipelineWithCacheResult (fun _ => none)
        (getPipelineWithCacheResult (fun _ => none) [] samplePipelineInfo).2.1
        samplePipelineInfoAlt).2.2 = 1 := by
  have h := getPipelineWithCacheResult_failure_scoped (fun _ => none) []
    samplePipelineInfo samplePipelineInfoAlt (by decide) rfl (by decide)
  exact ⟨h.2.1, h.2.2.2.2.1, h.2.2.2.2.2.2.2 (by decide)⟩

/-- Claim C4: during disk replay the reader callbacks never insert an entry for
a record whose payload is zero-length or whose module creation returns null;
when creation succeeds the inserted entry is marked attempted and compiled with
the module built from the payload. Util::CreateShaderModule is outside this
file set; per the spec a zero-length payload is never instantiable, stated here
as the hypothesis hzero on the creator oracle. -/
theorem shaderCacheReaderRead_drops_null (hashFn : Nat → Nat → Nat)
    (createModule : List Nat → Option Nat) (m : List (ShaderUid × VkShaderItem))
    (key : ShaderUid) (value : List Nat)
    (hzero : createModule [] = none) :
    (value = [] →
      shaderUsageCacheReaderRead hashFn createModule m key value = m ∧
      shaderCacheReaderRead hashFn createModule m key value = m) ∧
    (createModule value = none →
      shaderUsageCacheReaderRead hashFn createModule m key value = m ∧
      shaderCacheReaderRead hashFn createModule m key value = m) ∧
    (∀ mod, createModule value = some mod →
      lookupEntry (shaderUsageCacheReaderRead hashFn createModule m key value) key =
        some { initd := true, compiled := true, module := some mod } ∧
      lookupEntry (shaderCacheReaderRead hashFn createModule m key value) key =
        some { initd := true, compiled := true, module := some mod }) := by
  refine ⟨?_, ?_, ?_⟩
  · rintro rfl
    simp [shaderUsageCacheReaderRead, shaderCacheReaderRead, hzero]
  · intro hnone
    simp [shaderUsageCacheReaderRead, shaderCacheReaderRead, hnone]
  · intro mod hmod
    simp only [shaderUsageCacheReaderRead, shaderCacheReaderRead, hmod]
    exact ⟨lookupEntry_setEntry_self _ _ _, lookupEntry_setEntry_self _ _ _⟩

/-- Witness for C4 at a zero-length record and a succeeding one. -/
theorem shaderCacheReaderRead_drops_null_witness :
    shaderUsageCacheReaderRead sampleHashFn sampleCreateModule [] sampleStaleUid [] = [] ∧
    lookupEntry
      (shaderCacheReaderRead sampleHashFn sampleCreateModule [] sampleStaleUid [1])
      sampleStaleUid = some { initd := true, compiled := true, module := some 7 } := by
  have h1 := shaderCacheReaderRead_drops_null sampleHashFn sampleCreateModule []
    sampleStaleUid [] rfl
  have h2 := shaderCacheReaderRead_drops_null sampleHashFn sampleCreateModule []
    sampleStaleUid [1] rfl
  exact ⟨(h1.1 rfl).1, (h2.2.2 7 rfl).2⟩

/-- Counterexample to C5 as stated: a record key read from disk carrying a stale
cached hash is inserted under that original key; nothing appears under its
canonicalized form. -/
theorem shaderUsageCacheReaderRead_counterexample :
    lookupEntry
      (shaderUsageCacheReaderRead sampleHashFn sampleCreateModule [] sampleStaleUid [1])
      (ShaderUid.canonicalize sampleHashFn sampleStaleUid) = none ∧
    lookupEntry
      (shaderUsageCacheReaderRead sampleHashFn sampleCreateModule [] sampleStaleUid [1])
      sampleStaleUid = some { initd := true, compiled := true, module := some 7 } := by
  decide

/-- Claim C5 as amended: the canonicalization step (ClearHASH then
CalculateUIDHash) is idempotent, two keys with equal structural content get
equal hashes, and the canonical hash is computed from the cleared content and
never from the stale cached value; however the disk replay readers compute the
canonicalized copy and then discard it, inserting the record under the original
key as read from disk, not under its canonicalized form. -/
theorem shaderUid_canonicalize_props (hashFn : Nat → Nat → Nat) (u v : ShaderUid)
    (createModule : List Nat → Option Nat) (m : List (ShaderUid × VkShaderItem))
    (key : ShaderUid) (value : List Nat) (mod : Nat)
    (hcontent : u.content = v.content)
    (hmod : createModule value = some mod) :
    ShaderUid.canonicalize hashFn (ShaderUid.canonicalize hashFn u) =
      ShaderUid.canonicalize hashFn u ∧
    (ShaderUid.canonicalize hashFn u).hash = (ShaderUid.canonicalize hashFn v).hash ∧
    (ShaderUid.canonicalize hashFn u).hash = hashFn u.content 0 ∧
    lookupEntry (shaderUsageCacheReaderRead hashFn createModule m key value) key =
      some { initd := true, compiled := true, module := some mod } ∧
    (ShaderUid.canonicalize hashFn key ≠ key →
      lookupEntry (shaderUsageCacheReaderRead hashFn createModule m key value)
        (ShaderUid.canonicalize hashFn key) =
        lookupEntry m (ShaderUid.canonicalize hashFn key)) := by
  refine ⟨?_, ?_, rfl, ?_, ?_⟩
  · simp [ShaderUid.canonicalize, ShaderUid.clearHASH, ShaderUid.calculateUIDHash]
  · simp [ShaderUid.canonicalize, ShaderUid.clearHASH, ShaderUid.calculateUIDHash, hcontent]
  · simp only [shaderUsageCacheReaderRead, hmod]
    exact lookupEntry_setEntry_self _ _ _
  · intro hne
    simp only [shaderUsageCacheReaderRead, hmod]
    exact lookupEntry_setEntry_ne _ _ _ _ hne

/-- Witness for C5 (amended) at two uids of equal content and a stale-hash key. -/
theorem shaderUid_canonicalize_props_witness :
    ShaderUid.canonicalize sampleHashFn
        (ShaderUid.canonicalize sampleHashFn sampleStaleUid) =
      ShaderUid.canonicalize sampleHashFn sampleStaleUid ∧
    (ShaderUid.canonicalize sampleHashFn sampleStaleUid).hash =
      (ShaderUid.canonicalize sampleHashFn { content := 5, hash := 0 }).hash ∧
    lookupEntry
      (shaderUsageCacheReaderRead sampleHashFn sampleCreateModule [] sampleStaleUid [1])
      (ShaderUid.canonicalize sampleHashFn sampleStaleUid) =
      lookupEntry ([] : List (ShaderUid × VkShaderItem))
        (ShaderUid.canonicalize sampleHashFn sampleStaleUid) := by
  have h := shaderUid_canonicalize_props sampleHashFn sampleStaleUid
    { content := 5, hash := 0 } sampleCreateModule [] sampleStaleUid [1] 7 rfl rfl
  exact ⟨h.1, h.2.1, h.2.2.2.2 (by decide)⟩

/-- The visit sequence visits exactly the keys of the remaining list, in order. -/
theorem visitListFrom_map_fst {K : Type} (total : Nat) : ∀ (i : Nat) (l : List (K × Nat)),
    (visitListFrom total i l).map (fun x => x.1) = l.map Prod.fst := by
  intro i l
  induction l generalizing i with
  | nil => rfl
  | cons kc rest ih => simp [visitListFrom, ih]

/-- The running indices of the visit sequence count up from the start index. -/
theorem visitListFrom_map_idx {K : Type} (total : Nat) : ∀ (i : Nat) (l : List (K × Nat)),
    (visitListFrom total i l).map (fun x => x.2.1) = List.range' i l.length := by
  intro i l
  induction l generalizing i with
  | nil => rfl
  | cons kc rest ih => simp [visitListFrom, ih, List.range']

/-- Every visit reports the same fixed total. -/
theorem visitListFrom_total_eq {K : Type} (total : Nat) : ∀ (i : Nat) (l : List (K × Nat)),
    ∀ x ∈ visitListFrom total i l, x.2.2 = total := by
  intro i l
  induction l generalizing i with
  | nil => intro x hx; cases hx
  | cons kc rest ih =>
    intro x hx
    rcases List.mem_cons.mp hx with h | h
    · rw [h]
    · exact ih _ x h

/-- One visit per remaining entry. -/
theorem visitListFrom_length {K : Type} (total : Nat) : ∀ (i : Nat) (l : List (K × Nat)),
    (visitListFrom total i l).length = l.length := by
  intro i l
  induction l generalizing i with
  | nil => rfl
  | cons kc rest ih => simp [visitListFrom, ih]

/-- With distinct keys, membership of a pair determines the lookup result. -/
theorem lookupEntry_of_mem_of_nodup {K V : Type} [DecidableEq K] :
    ∀ (m : List (K × V)), (m.map Prod.fst).Nodup → ∀ {k : K} {v : V}, (k, v) ∈ m →
      lookupEntry m k = some v := by
  intro m
  induction m with
  | nil =>
    intro _ k v h
    cases h
  | cons p rest ih =>
    intro hnd k v hmem
    obtain ⟨k', v'⟩ := p
    have hnd2 : (k' :: rest.map Prod.fst).Nodup := by simpa using hnd
    have hhead : k' ∉ rest.map Prod.fst := (List.nodup_cons.mp hnd2).1
    have htailnd : (rest.map Prod.fst).Nodup := (List.nodup_cons.mp hnd2).2
    rcases List.mem_cons.mp hmem with heq | htail
    · cases heq
      simp [lookupEntry]
    · have hk : k' ≠ k := by
        intro hkk
        subst hkk
        exact hhead (List.mem_map.mpr ⟨(k', v), htail, rfl⟩)
      rw [lookupEntry, if_neg hk]
      exact ih htailnd htail

/-- Claim C6: with most_used_first set, the usage-ranked traversal visits the
remaining keys in descending usage-count order; the skip predicate removes its
keys from the traversal (so already-resolved entries cost no work); each
remaining key is visited exactly once, the running index counts 0, 1, ... and
every visit reports the total candidate count. -/
theorem forEachMostUsedByCategory_spec {K : Type} [DecidableEq K]
    (counts : List (K × Nat)) (skip : K → Bool)
    (hnd : (counts.map Prod.fst).Nodup) :
    List.Pairwise
      (fun a b : K => (lookupEntry counts b).getD 0 ≤ (lookupEntry counts a).getD 0)
      ((forEachMostUsedByCategory counts skip true).map (fun t => t.1)) ∧
    (∀ k : K, k ∈ (forEachMostUsedByCategory counts skip true).map (fun t => t.1) ↔
      (k ∈ counts.map Prod.fst ∧ skip k = false)) ∧
    ((forEachMostUsedByCategory counts skip true).map (fun t => t.1)).Nodup ∧
    (forEachMostUsedByCategory counts skip true).map (fun t => t.2.1) =
      List.range (forEachMostUsedByCategory counts skip true).length ∧
    (∀ t ∈ forEachMostUsedByCategory counts skip true,
      t.2.2 = (forEachMostUsedByCategory counts skip true).length) := by
  have hunfold : forEachMostUsedByCategory counts skip true =
      visitListFrom
        ((List.insertionSort usageOrder counts).filter (fun kc => !skip kc.1)).length 0
        ((List.insertionSort usageOrder counts).filter (fun kc => !skip kc.1)) := by
    simp [forEachMostUsedByCategory]
  have hperm : List.Perm (List.insertionSort usageOrder counts) counts :=
    List.perm_insertionSort usageOrder counts
  have hsorted : List.Pairwise usageOrder (List.insertionSort usageOrder counts) :=
    List.sorted_insertionSort usageOrder counts
  have hsub : List.Sublist
      ((List.insertionSort usageOrder counts).filter (fun kc => !skip kc.1))
      (List.insertionSort usageOrder counts) := List.filter_sublist _
  have hpairrem : List.Pairwise usageOrder
      ((List.insertionSort usageOrder counts).filter (fun kc => !skip kc.1)) :=
    List.Pairwise.sublist hsub hsorted
  have hmemrem : ∀ kc : K × Nat,
      kc ∈ (List.insertionSort usageOrder counts).filter (fun kc => !skip kc.1) ↔
      (kc ∈ counts ∧ skip kc.1 = false) := by
    intro kc
    rw [List.mem_filter, hperm.mem_iff, Bool.not_eq_true']
  have hkeys : (forEachMostUsedByCategory counts skip true).map (fun t => t.1) =
      ((List.insertionSort usageOrder counts).filter (fun kc => !skip kc.1)).map Prod.fst := by
    rw [hunfold, visitListFrom_map_fst]
  refine ⟨?_, ?_, ?_, ?_, ?_⟩
  · rw [hkeys, List.pairwise_map]
    refine List.Pairwise.imp_of_mem ?_ hpairrem
    intro a b ha hb hab
    have ha' : lookupEntry counts a.1 = some a.2 :=
      lookupEntry_of_mem_of_nodup counts hnd (by simpa using ((hmemrem a).mp ha).1)
    have hb' : lookupEntry counts b.1 = some b.2 :=
      lookupEntry_of_mem_of_nodup counts hnd (by simpa using ((hmemrem b).mp hb).1)
    rw [ha', hb']
    exact hab
  · intro k
    rw [hkeys]
    constructor
    · intro hk
      obtain ⟨kc, hkc, hfst⟩ := List.mem_map.mp hk
      obtain ⟨hmem, hskip⟩ := (hmemrem kc).mp hkc
      exact ⟨hfst ▸ List.mem_map.mpr ⟨kc, hmem, rfl⟩, hfst ▸ hskip⟩
    · rintro ⟨hk, hskip⟩
      obtain ⟨kc, hkc, hfst⟩ := List.mem_map.mp hk
      exact List.mem_map.mpr ⟨kc, (hmemrem kc).mpr ⟨hkc, hfst ▸ hskip⟩, hfst⟩
  · rw [hkeys]
    have hnodsorted : ((List.insertionSort usageOrder counts).map Prod.fst).Nodup :=
      ((hperm.map Prod.fst).nodup_iff).mpr hnd
    exact List.Nodup.sublist (hsub.map Prod.fst) hnodsorted
  · rw [hunfold, visitListFrom_map_idx, visitListFrom_length, List.range_eq_range']
  · rw [hunfold]
    intro t ht
    rw [visitListFrom_length]
    exact visitListFrom_total_eq _ _ _ t ht

/-- Witness for C6 at the keyspace A, B, C with counts 5, 1, 3 (A = 0, B = 1,
C = 2): without skipping, the visit order is A, C, B; with B marked resolved,
only A and C are visited, each reporting total 2, with indices 0, 1. -/
theorem forEachMostUsedByCategory_spec_witness :
    (([(0, 5), (1, 1), (2, 3)] : List (Nat × Nat)).map Prod.fst).Nodup ∧
    forEachMostUsedByCategory ([(0, 5), (1, 1), (2, 3)] : List (Nat × Nat))
      (fun _ => false) true = [(0, 0, 3), (2, 1, 3), (1, 2, 3)] ∧
    forEachMostUsedByCategory ([(0, 5), (1, 1), (2, 3)] : List (Nat × Nat))
      (fun k => decide (k = 1)) true = [(0, 0, 2), (2, 1, 2)] ∧
    (forEachMostUsedByCategory ([(0, 5), (1, 1), (2, 3)] : List (Nat × Nat))
        (fun k => decide (k = 1)) true).map (fun t => t.2.1) =
      List.range (forEachMostUsedByCategory ([(0, 5), (1, 1), (2, 3)] : List (Nat × Nat))
        (fun k => decide (k = 1)) true).length := by
  have h := forEachMostUsedByCategory_spec ([(0, 5), (1, 1), (2, 3)] : List (Nat × Nat))
    (fun k => decide (k = 1)) (by decide)
  exact ⟨by decide, by decide, by decide, h.2.2.2.1⟩

end IshiirukaVk
